import Mathlib

/-!
Verification of the cyrano front-end recording-session layer.

The definitions below are a shallow embedding of the TypeScript sources:
* `UIState` and its setters embed `src/store/ui-store.ts` (the zustand store);
* `mainHandle` embeds the event listeners of
  `src/hooks/useMainWindowEventListeners.ts`;
* `overlayHandle` embeds the event listeners of
  `src/components/recording-overlay/RecordingOverlayApp.tsx`;
* the preference-transaction definitions embed `handleShortcutChange` of
  `src/components/preferences/panes/GeneralPane.tsx`;
* the overlay lifecycle machine embeds the auto-dismiss / click / unmount
  logic of the `RecordingOverlay` component (auto-dismiss revision).

The TypeScript `RecordingState` union is erased at runtime: the
`recording-state-changed` handlers cast an arbitrary lowercased string into
it, so `recordingState` is embedded as `String`, with the five enum values
as string constants.
-/

/-- Structured backend error payload (tagged union `CyranoError` from the
tauri bindings, shapes as consumed by `ErrorIndicator.parseError`). The
handlers treat it opaquely. -/
inductive CyranoError where
  | micAccessDenied : CyranoError
  | modelNotFound (path : String) : CyranoError
  | modelLoadFailed (reason : String) : CyranoError
  | recordingFailed (reason : String) : CyranoError
  | transcriptionFailed (reason : String) : CyranoError
deriving DecidableEq

/-- The five declared recording-state enum values (`RecordingState` in
`ui-store.ts`). -/
def recordingStates : List String :=
  ["idle", "recording", "transcribing", "done", "error"]

/-- Character-wise lowercasing, embedding the `.toLowerCase()` call the
`recording-state-changed` handlers apply to their payload. -/
def lowercase (s : String) : String :=
  String.mk (s.data.map Char.toLower)

/-- Per-window zustand store state (`UIState` in `ui-store.ts`).
The `transcriptionResult` field is Modelled from the spec: the store file
under the sources lacks it, but `RecordingOverlayApp` and `RecordingOverlay`
read and write it, and the spec declares it as an optional text cleared when
the session returns to idle. -/
structure UIState where
  leftSidebarVisible : Bool
  rightSidebarVisible : Bool
  commandPaletteOpen : Bool
  preferencesOpen : Bool
  lastQuickPaneEntry : Option String
  recordingOverlayVisible : Bool
  recordingState : String
  recordingError : Option CyranoError
  transcriptionResult : Option String
deriving DecidableEq

/-- Store state at window load (initializer object of `create` in
`ui-store.ts`). -/
def initialUIState : UIState :=
  { leftSidebarVisible := true
    rightSidebarVisible := true
    commandPaletteOpen := false
    preferencesOpen := false
    lastQuickPaneEntry := none
    recordingOverlayVisible := false
    recordingState := "idle"
    recordingError := none
    transcriptionResult := none }

/-- Setter `setLastQuickPaneEntry` of `ui-store.ts`. -/
def setLastQuickPaneEntry (text : String) (st : UIState) : UIState :=
  { st with lastQuickPaneEntry := some text }

/-- Setter `setRecordingOverlayVisible` of `ui-store.ts`. -/
def setRecordingOverlayVisible (visible : Bool) (st : UIState) : UIState :=
  { st with recordingOverlayVisible := visible }

/-- Setter `setRecordingState` of `ui-store.ts`: writes the field and
nothing else. -/
def setRecordingState (s : String) (st : UIState) : UIState :=
  { st with recordingState := s }

/-- Setter `setRecordingError` of `ui-store.ts`: stores the payload and
also forces `recordingState := 'error'`. -/
def setRecordingError (e : Option CyranoError) (st : UIState) : UIState :=
  { st with recordingError := e, recordingState := "error" }

/-- Setter `clearRecordingError` of `ui-store.ts`: clears only the error
payload (does not touch `recordingState`). -/
def clearRecordingError (st : UIState) : UIState :=
  { st with recordingError := none }

/-- Modelled from the spec: setter `setTranscriptionResult`, absent from the
store file in the sources but invoked by the `transcription-complete`
listener; the spec says it populates the optional transcription text. -/
def setTranscriptionResult (text : String) (st : UIState) : UIState :=
  { st with transcriptionResult := some text }

/-- Modelled from the spec: setter `clearTranscriptionResult`, absent from
the store file in the sources but invoked by the dismiss and
`transcription-cancelled` paths; the spec says it clears the optional
transcription text. -/
def clearTranscriptionResult (st : UIState) : UIState :=
  { st with transcriptionResult := none }

/-- Backend push events consumed by the two windows (names and payload
shapes from the listener registrations). -/
inductive BackendEvent where
  | quickPaneSubmit (text : String) : BackendEvent
  | recordingOverlayShown : BackendEvent
  | recordingOverlayDismissed : BackendEvent
  | recordingCancelled : BackendEvent
  | recordingStateChanged (state : String) : BackendEvent
  | recordingStarted (timestamp : Nat) : BackendEvent
  | recordingStopped (durationMs sampleCount : Nat) : BackendEvent
  | recordingFailed (error : CyranoError) : BackendEvent
  | transcriptionStarted (timestamp : Nat) : BackendEvent
  | transcriptionComplete (text : String) (durationMs : Nat) : BackendEvent
  | transcriptionFailed (error : CyranoError) : BackendEvent
  | transcriptionCancelled (timestamp : Nat) : BackendEvent
deriving DecidableEq

/-- Main-window event handling (`useMainWindowEventListeners.ts`): the store
mutation each listener applies; events with no listener in that window leave
the store unchanged. -/
def mainHandle (ev : BackendEvent) (st : UIState) : UIState :=
  match ev with
  | .quickPaneSubmit text => setLastQuickPaneEntry text st
  | .recordingOverlayShown =>
      setRecordingState "recording" (setRecordingOverlayVisible true st)
  | .recordingOverlayDismissed =>
      setRecordingState "idle" (setRecordingOverlayVisible false st)
  | .recordingCancelled =>
      setRecordingState "idle" (setRecordingOverlayVisible false st)
  | .recordingStateChanged s => setRecordingState (lowercase s) st
  | .recordingStarted _ => setRecordingState "recording" (clearRecordingError st)
  | .recordingStopped _ _ => setRecordingState "transcribing" st
  | .recordingFailed e =>
      setRecordingOverlayVisible true (setRecordingError (some e) st)
  | .transcriptionStarted _ => st
  | .transcriptionComplete _ _ => st
  | .transcriptionFailed _ => st
  | .transcriptionCancelled _ => st

/-- Overlay-window event handling (`RecordingOverlayApp.tsx`): the store
mutation each listener applies; events with no listener in that window leave
the store unchanged. The `transcription-cancelled` listener additionally
issues a dismiss command, tracked separately in the lifecycle machine. -/
def overlayHandle (ev : BackendEvent) (st : UIState) : UIState :=
  match ev with
  | .quickPaneSubmit _ => st
  | .recordingOverlayShown => st
  | .recordingOverlayDismissed => st
  | .recordingCancelled => st
  | .recordingStateChanged s => setRecordingState (lowercase s) st
  | .recordingStarted _ => setRecordingState "recording" (clearRecordingError st)
  | .recordingStopped _ _ => setRecordingState "transcribing" st
  | .recordingFailed e => setRecordingError (some e) st
  | .transcriptionStarted _ => st
  | .transcriptionComplete text _ =>
      setRecordingState "done" (setTranscriptionResult text st)
  | .transcriptionFailed e => setRecordingError (some e) st
  | .transcriptionCancelled _ =>
      setRecordingOverlayVisible false
        (setRecordingState "idle" (clearTranscriptionResult st))

/-- Apply a sequence of backend events, in arrival order, through the
main-window listeners. -/
def applyMainEvents (evs : List BackendEvent) (st : UIState) : UIState :=
  evs.foldl (fun s ev => mainHandle ev s) st

/-- Apply a sequence of backend events, in arrival order, through the
overlay-window listeners. -/
def applyOverlayEvents (evs : List BackendEvent) (st : UIState) : UIState :=
  evs.foldl (fun s ev => overlayHandle ev s) st

/-- Whether an event is a `recording-state-changed` whose payload lowercases
to `error` (the one event that drives `state == 'error'` without a
payload). -/
def isErrorStateChanged (ev : BackendEvent) : Bool :=
  match ev with
  | .recordingStateChanged s => lowercase s == "error"
  | _ => false

/-- The one-directional error invariant that the handlers actually
maintain. -/
def errorImpliesPayload (st : UIState) : Prop :=
  st.recordingState = "error" → st.recordingError ≠ none

instance (st : UIState) : Decidable (errorImpliesPayload st) := by
  unfold errorImpliesPayload; infer_instance

/-! ## PreferenceTransaction (`handleShortcutChange` in `GeneralPane.tsx`)

The backend and the preference store are external: the transaction is
embedded as a function of the three call outcomes (register the new value,
persist it, re-register the old value), producing the observable trace of
calls, the toasts shown, and the final persisted preference value. -/

/-- A call issued by the transaction: `commands.updateQuickPaneShortcut`
(registration) or `savePreferences.mutateAsync` (persistence). A shortcut
value is `string | null`, hence `Option String`. -/
inductive PrefCall where
  | registerShortcut (value : Option String) : PrefCall
  | persistShortcut (value : Option String) : PrefCall
deriving DecidableEq

/-- User-facing notifications of the transaction. `shortcutFailed` and
`shortcutRestoreFailed` are the two `toast.error` calls in
`handleShortcutChange`; `saveFailedWarning` is Modelled from the spec: the
`useSavePreferences` hook is absent from the sources, and the spec requires
a "change not saved" warning when persistence fails but compensation
succeeds. -/
inductive ToastKind where
  | shortcutFailed : ToastKind
  | saveFailedWarning : ToastKind
  | shortcutRestoreFailed : ToastKind
deriving DecidableEq

/-- Observable outcome of one run of the transaction. `persistedShortcut`
is the preference value an observer reads afterwards (a failed
`mutateAsync` leaves the stored record unchanged). -/
structure TxOutcome where
  calls : List PrefCall
  toasts : List ToastKind
  persistedShortcut : Option String
deriving DecidableEq

/-- The transaction body of `handleShortcutChange`, parameterized by the
outcomes of the backend registration of the new value (`regNewOk`), the
persistence write (`persistOk`), and the compensating re-registration of
the old value (`regOldOk`, consulted only on the rollback path):

1. register `newShortcut`; on error, toast `shortcutFailed` and stop;
2. persist `newShortcut`; on success, done;
3. on persistence failure, re-register `oldShortcut`; on success the spec's
   "change not saved" warning is surfaced (Modelled from the spec, see
   `ToastKind.saveFailedWarning`), on failure the distinct
   `shortcutRestoreFailed` desync toast is shown; either way no further
   call is made. -/
def handleShortcutChange (oldShortcut newShortcut : Option String)
    (regNewOk persistOk regOldOk : Bool) : TxOutcome :=
  if !regNewOk then
    { calls := [.registerShortcut newShortcut]
      toasts := [.shortcutFailed]
      persistedShortcut := oldShortcut }
  else if persistOk then
    { calls := [.registerShortcut newShortcut, .persistShortcut newShortcut]
      toasts := []
      persistedShortcut := newShortcut }
  else if regOldOk then
    { calls := [.registerShortcut newShortcut, .persistShortcut newShortcut,
                .registerShortcut oldShortcut]
      toasts := [.saveFailedWarning]
      persistedShortcut := oldShortcut }
  else
    { calls := [.registerShortcut newShortcut, .persistShortcut newShortcut,
                .registerShortcut oldShortcut]
      toasts := [.shortcutRestoreFailed]
      persistedShortcut := oldShortcut }

/-- The registration calls of a call trace, in order, with their values. -/
def registeredValues : List PrefCall → List (Option String)
  | [] => []
  | .registerShortcut v :: rest => v :: registeredValues rest
  | .persistShortcut _ :: rest => registeredValues rest

/-! ## OverlayLifecycleController (`RecordingOverlay`, auto-dismiss revision)

The component is embedded as a transition system: the store, the pending
timeout (`dismissTimeoutRef`, as an absolute deadline), the clock, and
counters for the backend commands issued. React behaviour that the code
relies on is made explicit: a store mutation re-runs the auto-dismiss
effect exactly when one of its dependencies `[recordingState, isError]`
changed, the effect's cleanup clears the pending timeout before the body
runs, and a `setTimeout` callback fires at most once. -/

/-- Auto-dismiss delay for success state (1.2 seconds). -/
def AUTO_DISMISS_SUCCESS_MS : Nat := 1200

/-- Auto-dismiss delay for error state (1.8 seconds — longer for error
reading). -/
def AUTO_DISMISS_ERROR_MS : Nat := 1800

/-- The component's `isError` derivation:
`recordingState === 'error' || recordingError !== null`. -/
def overlayIsError (st : UIState) : Bool :=
  st.recordingState == "error" || st.recordingError.isSome

/-- State of one mounted `RecordingOverlay` instance together with its
window's clock and the backend commands it has issued. -/
structure OverlaySt where
  store : UIState
  timerDeadline : Option Nat
  now : Nat
  dismissCmds : Nat
  cancelRecordingCmds : Nat
  cancelTranscriptionCmds : Nat
  mounted : Bool
deriving DecidableEq

/-- The `dismissOverlay` routine: clear any pending timeout first, then
clear the error, reset state to idle, hide the overlay, clear the
transcription result, and issue one `dismissRecordingOverlay` command. -/
def dismissOverlay (s : OverlaySt) : OverlaySt :=
  { s with
    timerDeadline := none
    store := clearTranscriptionResult (setRecordingOverlayVisible false
      (setRecordingState "idle" (clearRecordingError s.store)))
    dismissCmds := s.dismissCmds + 1 }

/-- The delay the auto-dismiss effect arms for a given store state: only
terminal states arm a timer, the error delay when `isError`, else the
success delay. -/
def autoDismissDelay (st : UIState) : Option Nat :=
  if st.recordingState == "done" || overlayIsError st then
    some (if overlayIsError st then AUTO_DISMISS_ERROR_MS
          else AUTO_DISMISS_SUCCESS_MS)
  else none

/-- One run of the auto-dismiss effect: the cleanup of the previous run
clears the pending timeout, then the body arms a new timeout when the store
is in a terminal state. -/
def runAutoDismissEffect (s : OverlaySt) : OverlaySt :=
  match autoDismissDelay s.store with
  | some d => { s with timerDeadline := some (s.now + d) }
  | none => { s with timerDeadline := none }

/-- Apply a store mutation to a mounted overlay: the effect re-runs exactly
when one of its dependencies `[recordingState, isError]` changed. -/
def applyStoreChange (f : UIState → UIState) (s : OverlaySt) : OverlaySt :=
  if (f s.store).recordingState == s.store.recordingState
      && overlayIsError (f s.store) == overlayIsError s.store then
    { s with store := f s.store }
  else
    runAutoDismissEffect { s with store := f s.store }

/-- Advance the clock by `d` milliseconds: a pending timeout whose deadline
is reached fires once (its callback is `dismissOverlay`), after which the
effect re-runs on the reset store and arms nothing. -/
def advanceTime (d : Nat) (s : OverlaySt) : OverlaySt :=
  match s.timerDeadline with
  | some t =>
      if t ≤ s.now + d then
        { runAutoDismissEffect (dismissOverlay { s with now := t }) with
            now := s.now + d }
      else { s with now := s.now + d }
  | none => { s with now := s.now + d }

/-- The `handleClick` handler: clear any pending auto-dismiss timeout
first; while transcribing issue a cancel-transcription command, while
recording a cancel-recording command, otherwise run `dismissOverlay` (the
resulting idle store re-runs the effect, which arms nothing). -/
def handleClick (s : OverlaySt) : OverlaySt :=
  if s.store.recordingState == "transcribing" then
    { s with timerDeadline := none,
             cancelTranscriptionCmds := s.cancelTranscriptionCmds + 1 }
  else if s.store.recordingState == "recording" then
    { s with timerDeadline := none,
             cancelRecordingCmds := s.cancelRecordingCmds + 1 }
  else
    runAutoDismissEffect (dismissOverlay { s with timerDeadline := none })

/-- Mount the overlay over a given store state: the first render runs the
auto-dismiss effect body (there is no previous cleanup; clearing the empty
timeout slot is the identity). -/
def mountOverlay (st : UIState) (t0 : Nat) : OverlaySt :=
  runAutoDismissEffect
    { store := st, timerDeadline := none, now := t0, dismissCmds := 0,
      cancelRecordingCmds := 0, cancelTranscriptionCmds := 0, mounted := true }

/-- Unmount: the effect cleanup runs unconditionally and clears any pending
timeout. -/
def unmountOverlay (s : OverlaySt) : OverlaySt :=
  { s with timerDeadline := none, mounted := false }

/-! ## Theorems -/

/-- Every main-window listener preserves the one-directional invariant
`state == 'error' → error != null`, provided the event is not a
`recording-state-changed` whose payload lowercases to `error`. -/
lemma mainHandle_errorImpliesPayload (ev : BackendEvent) (st : UIState)
    (hev : isErrorStateChanged ev = false) (hst : errorImpliesPayload st) :
    errorImpliesPayload (mainHandle ev st) := by
  cases ev <;>
    simp_all +decide [mainHandle, isErrorStateChanged, errorImpliesPayload,
      setRecordingState, setRecordingError, clearRecordingError,
      setRecordingOverlayVisible, setLastQuickPaneEntry, beq_iff_eq]

/-- Every overlay-window listener preserves the one-directional invariant
`state == 'error' → error != null`, provided the event is not a
`recording-state-changed` whose payload lowercases to `error`. -/
lemma overlayHandle_errorImpliesPayload (ev : BackendEvent) (st : UIState)
    (hev : isErrorStateChanged ev = false) (hst : errorImpliesPayload st) :
    errorImpliesPayload (overlayHandle ev st) := by
  cases ev <;>
    simp_all +decide [overlayHandle, isErrorStateChanged, errorImpliesPayload,
      setRecordingState, setRecordingError, clearRecordingError,
      setRecordingOverlayVisible, setTranscriptionResult,
      clearTranscriptionResult, beq_iff_eq]

/-- Fold form of `mainHandle_errorImpliesPayload` over a sequence of
events. -/
lemma applyMainEvents_errorImpliesPayload (evs : List BackendEvent)
    (st : UIState) (hev : ∀ ev ∈ evs, isErrorStateChanged ev = false)
    (hst : errorImpliesPayload st) :
    errorImpliesPayload (applyMainEvents evs st) := by
  induction evs generalizing st with
  | nil => simpa [applyMainEvents] using hst
  | cons e rest ih =>
      have h1 : errorImpliesPayload (mainHandle e st) :=
        mainHandle_errorImpliesPayload e st (hev e (List.mem_cons_self e rest)) hst
      have h2 := ih (mainHandle e st)
        (fun ev hm => hev ev (List.mem_cons_of_mem e hm)) h1
      simpa [applyMainEvents, List.foldl_cons] using h2

/-- Fold form of `overlayHandle_errorImpliesPayload` over a sequence of
events. -/
lemma applyOverlayEvents_errorImpliesPayload (evs : List BackendEvent)
    (st : UIState) (hev : ∀ ev ∈ evs, isErrorStateChanged ev = false)
    (hst : errorImpliesPayload st) :
    errorImpliesPayload (applyOverlayEvents evs st) := by
  induction evs generalizing st with
  | nil => simpa [applyOverlayEvents] using hst
  | cons e rest ih =>
      have h1 : errorImpliesPayload (overlayHandle e st) :=
        overlayHandle_errorImpliesPayload e st (hev e (List.mem_cons_self e rest)) hst
      have h2 := ih (overlayHandle e st)
        (fun ev hm => hev ev (List.mem_cons_of_mem e hm)) h1
      simpa [applyOverlayEvents, List.foldl_cons] using h2

/-- C1 (counterexample): the claimed biconditional
`state == 'error' ⇔ error != null` fails on the very sequence the claim
names: from the fresh store, `recording-failed` followed by
`recording-stopped` ends with `state == 'transcribing'` while the error
payload is still in place. -/
theorem c1_error_iff_payload_counterexample :
    ¬ (((applyMainEvents
          [BackendEvent.recordingFailed CyranoError.micAccessDenied,
           BackendEvent.recordingStopped 1500 24000]
          initialUIState).recordingState = "error") ↔
        ((applyMainEvents
          [BackendEvent.recordingFailed CyranoError.micAccessDenied,
           BackendEvent.recordingStopped 1500 24000]
          initialUIState).recordingError ≠ none)) := by
  decide

/-- C1 (amended): after any finite sequence of consumed backend events
applied to the freshly initialized per-window store, the forward direction
`state == 'error' → error != null` holds — in either window — provided no
event in the sequence is a `recording-state-changed` whose payload
lowercases to `error` (such an event sets `state == 'error'` with a null
payload); the converse direction does not hold, since events such as
`recording-stopped` move `state` away from `'error'` while leaving the
error payload in place. -/
theorem c1_error_state_implies_payload (evs : List BackendEvent)
    (hev : ∀ ev ∈ evs, isErrorStateChanged ev = false) :
    errorImpliesPayload (applyMainEvents evs initialUIState) ∧
    errorImpliesPayload (applyOverlayEvents evs initialUIState) :=
  ⟨applyMainEvents_errorImpliesPayload evs initialUIState hev (by decide),
   applyOverlayEvents_errorImpliesPayload evs initialUIState hev (by decide)⟩

/-- C1 (witness): the amended theorem applied to the concrete sequence
`[recording-failed]`, whose final state is `error` with the payload in
place. -/
theorem c1_error_state_implies_payload_witness :
    errorImpliesPayload (applyMainEvents
      [BackendEvent.recordingFailed CyranoError.micAccessDenied]
      initialUIState) ∧
    errorImpliesPayload (applyOverlayEvents
      [BackendEvent.recordingFailed CyranoError.micAccessDenied]
      initialUIState) :=
  c1_error_state_implies_payload
    [BackendEvent.recordingFailed CyranoError.micAccessDenied] (by decide)

/-- C2: the store's compound setters — `setRecordingState`,
`setRecordingError` (the spec's `setError`, which also forces
`state = 'error'`), `clearRecordingError` (the spec's `clearError`),
`setTranscriptionResult` and `clearTranscriptionResult` — are total
functions on the store state (they are defined for every state and input
and never fail), with the stated effects. -/
theorem c2_compound_setters_total (st : UIState) (s : String)
    (e : Option CyranoError) (t : String) :
    (setRecordingState s st).recordingState = s ∧
    (setRecordingError e st).recordingError = e ∧
    (setRecordingError e st).recordingState = "error" ∧
    (clearRecordingError st).recordingError = none ∧
    (setTranscriptionResult t st).transcriptionResult = some t ∧
    (clearTranscriptionResult st).transcriptionResult = none := by
  refine ⟨rfl, rfl, rfl, rfl, rfl, rfl⟩

/-- C3: a `transcription-complete` event with text `hello world` and
duration 300 ms arriving in the overlay window while
`state == 'transcribing'` sets the transcription result to `hello world`
and the state to `done`; the handler is a total function on the store. -/
theorem c3_transcription_complete (st : UIState)
    (_h : st.recordingState = "transcribing") :
    (overlayHandle (BackendEvent.transcriptionComplete "hello world" 300)
        st).transcriptionResult = some "hello world" ∧
    (overlayHandle (BackendEvent.transcriptionComplete "hello world" 300)
        st).recordingState = "done" := by
  exact ⟨rfl, rfl⟩

/-- C3 (witness): the theorem applied to the concrete store reached from
the fresh store by `recording-started` then `recording-stopped`. -/
theorem c3_transcription_complete_witness :
    (overlayHandle (BackendEvent.transcriptionComplete "hello world" 300)
        (applyOverlayEvents [BackendEvent.recordingStarted 7,
          BackendEvent.recordingStopped 1500 24000]
          initialUIState)).transcriptionResult = some "hello world" ∧
    (overlayHandle (BackendEvent.transcriptionComplete "hello world" 300)
        (applyOverlayEvents [BackendEvent.recordingStarted 7,
          BackendEvent.recordingStopped 1500 24000]
          initialUIState)).recordingState = "done" :=
  c3_transcription_complete _ (by decide)

/-- C10: the `recording-state-changed` handlers of both windows write the
lowercased payload into `recordingState` and change no other store field
(the whole resulting store equals the input store with only
`recordingState` replaced), with no membership validation: a payload whose
lowercasing lies outside the five declared enum values drives
`recordingState` outside the enum. -/
theorem c10_state_changed_unvalidated (s : String) (st : UIState) :
    mainHandle (BackendEvent.recordingStateChanged s) st =
      { st with recordingState := lowercase s } ∧
    overlayHandle (BackendEvent.recordingStateChanged s) st =
      { st with recordingState := lowercase s } ∧
    (lowercase s ∉ recordingStates →
      (mainHandle (BackendEvent.recordingStateChanged s) st).recordingState ∉
        recordingStates) := by
  refine ⟨rfl, rfl, ?_⟩
  intro h
  simpa [mainHandle, setRecordingState] using h

/-- C10 (witness): the theorem applied to the payload `BOGUS` on the fresh
store; `bogus` lies outside the declared enum. -/
theorem c10_state_changed_unvalidated_witness :
    (mainHandle (BackendEvent.recordingStateChanged "BOGUS")
        initialUIState).recordingState ∉ recordingStates :=
  (c10_state_changed_unvalidated "BOGUS" initialUIState).2.2 (by decide)

/-- C4: when registering the new shortcut succeeds, persisting fails, and
the compensating re-registration succeeds, the final observable preference
value is the original `oldValue`, exactly two registration calls occur —
first with the new value, then with the old — and the "change not saved"
warning is surfaced. -/
theorem c4_rollback_success (oldV newV : Option String) :
    (handleShortcutChange oldV newV true false true).persistedShortcut = oldV ∧
    registeredValues
      (handleShortcutChange oldV newV true false true).calls = [newV, oldV] ∧
    ToastKind.saveFailedWarning ∈
      (handleShortcutChange oldV newV true false true).toasts := by
  refine ⟨rfl, rfl, ?_⟩
  simp [handleShortcutChange]

/-- C5: when registering the new shortcut succeeds, persisting fails, and
the compensating re-registration also fails, the surfaced error is the
desync toast, which is distinguishable from the plain-failure toast, and the
call trace ends at the failed compensation — no further backend or
persistence call occurs. -/
theorem c5_rollback_failure (oldV newV : Option String) :
    (handleShortcutChange oldV newV true false false).toasts =
      [ToastKind.shortcutRestoreFailed] ∧
    ToastKind.shortcutRestoreFailed ≠ ToastKind.shortcutFailed ∧
    (handleShortcutChange oldV newV true false false).calls =
      [PrefCall.registerShortcut newV, PrefCall.persistShortcut newV,
       PrefCall.registerShortcut oldV] := by
  refine ⟨rfl, by decide, rfl⟩

/-- The auto-dismiss effect changes only the timeout slot. -/
lemma runAutoDismissEffect_frame (s : OverlaySt) :
    (runAutoDismissEffect s).now = s.now ∧
    (runAutoDismissEffect s).dismissCmds = s.dismissCmds ∧
    (runAutoDismissEffect s).store = s.store := by
  cases h : autoDismissDelay s.store <;>
    simp [runAutoDismissEffect, h]

/-- After the dismiss routine runs and the effect re-runs on the reset
store, no timeout is armed, exactly one more dismiss command has been
issued, the store is idle with error and transcription result cleared and
the overlay hidden, and the clock is unchanged. -/
lemma afterDismiss_spec (s : OverlaySt) :
    (runAutoDismissEffect (dismissOverlay s)).timerDeadline = none ∧
    (runAutoDismissEffect (dismissOverlay s)).dismissCmds = s.dismissCmds + 1 ∧
    (runAutoDismissEffect (dismissOverlay s)).store.recordingState = "idle" ∧
    (runAutoDismissEffect (dismissOverlay s)).store.recordingError = none ∧
    (runAutoDismissEffect (dismissOverlay s)).now = s.now := by
  simp +decide [runAutoDismissEffect, dismissOverlay, autoDismissDelay,
    overlayIsError, clearTranscriptionResult, setRecordingOverlayVisible,
    setRecordingState, clearRecordingError]

/-- Advancing the clock with no pending timeout only moves the clock. -/
lemma advanceTime_no_timer (d : Nat) (s : OverlaySt)
    (h : s.timerDeadline = none) :
    advanceTime d s = { s with now := s.now + d } := by
  unfold advanceTime
  rw [h]

/-- Advancing the clock short of the pending deadline only moves the
clock. -/
lemma advanceTime_before_deadline (d t : Nat) (s : OverlaySt)
    (h : s.timerDeadline = some t) (hlt : s.now + d < t) :
    advanceTime d s = { s with now := s.now + d } := by
  unfold advanceTime
  rw [h]
  simp [Nat.not_le.mpr hlt]

/-- Advancing the clock past the pending deadline fires the timeout once:
one more dismiss command, the store reset to idle, and no timeout left. -/
lemma advanceTime_fires (d t : Nat) (s : OverlaySt)
    (h : s.timerDeadline = some t) (hle : t ≤ s.now + d) :
    (advanceTime d s).dismissCmds = s.dismissCmds + 1 ∧
    (advanceTime d s).timerDeadline = none ∧
    (advanceTime d s).store.recordingState = "idle" := by
  unfold advanceTime
  rw [h]
  have h1 := afterDismiss_spec { s with now := t }
  simp only [hle, if_true]
  exact ⟨h1.2.1, h1.1, h1.2.2.1⟩

/-- C6: with the store in a non-terminal state, entering `done` arms the
auto-dismiss timeout at exactly `AUTO_DISMISS_SUCCESS_MS` (1200 ms) and
entering the error state arms it at exactly `AUTO_DISMISS_ERROR_MS`
(1800 ms); in the error state, advancing the clock by 1200 ms issues no
dismiss command, while advancing by 1800 ms fires the dismiss routine
exactly once. -/
theorem c6_auto_dismiss_delays (s : OverlaySt) (e : CyranoError)
    (h1 : s.store.recordingState = "transcribing")
    (h2 : s.store.recordingError = none) :
    AUTO_DISMISS_SUCCESS_MS = 1200 ∧
    AUTO_DISMISS_ERROR_MS = 1800 ∧
    (applyStoreChange (setRecordingState "done") s).timerDeadline =
      some (s.now + AUTO_DISMISS_SUCCESS_MS) ∧
    (applyStoreChange (setRecordingError (some e)) s).timerDeadline =
      some (s.now + AUTO_DISMISS_ERROR_MS) ∧
    (advanceTime 1200
      (applyStoreChange (setRecordingError (some e)) s)).dismissCmds =
      s.dismissCmds ∧
    (advanceTime 1800
      (applyStoreChange (setRecordingError (some e)) s)).dismissCmds =
      s.dismissCmds + 1 := by
  have hD : applyStoreChange (setRecordingState "done") s =
      { s with store := setRecordingState "done" s.store,
               timerDeadline := some (s.now + AUTO_DISMISS_SUCCESS_MS) } := by
    simp +decide [applyStoreChange, setRecordingState, overlayIsError, h1, h2,
      runAutoDismissEffect, autoDismissDelay]
  have hE : applyStoreChange (setRecordingError (some e)) s =
      { s with store := setRecordingError (some e) s.store,
               timerDeadline := some (s.now + AUTO_DISMISS_ERROR_MS) } := by
    simp +decide [applyStoreChange, setRecordingError, overlayIsError, h1,
      runAutoDismissEffect, autoDismissDelay]
  refine ⟨rfl, rfl, ?_, ?_, ?_, ?_⟩
  · rw [hD]
  · rw [hE]
  · rw [hE, advanceTime_before_deadline 1200 (s.now + AUTO_DISMISS_ERROR_MS)
      _ rfl (by show s.now + 1200 < s.now + AUTO_DISMISS_ERROR_MS; simp [AUTO_DISMISS_ERROR_MS])]
  · rw [hE]
    exact (advanceTime_fires 1800 (s.now + AUTO_DISMISS_ERROR_MS) _ rfl
      (by show s.now + AUTO_DISMISS_ERROR_MS ≤ s.now + 1800; simp [AUTO_DISMISS_ERROR_MS])).1

/-- C6 (witness): the theorem applied to a freshly mounted overlay over a
transcribing store at clock 0. -/
theorem c6_auto_dismiss_delays_witness :
    AUTO_DISMISS_SUCCESS_MS = 1200 ∧
    AUTO_DISMISS_ERROR_MS = 1800 ∧
    (applyStoreChange (setRecordingState "done")
      (mountOverlay (setRecordingState "transcribing" initialUIState) 0)).timerDeadline =
      some ((mountOverlay (setRecordingState "transcribing" initialUIState) 0).now +
        AUTO_DISMISS_SUCCESS_MS) ∧
    (applyStoreChange (setRecordingError (some CyranoError.micAccessDenied))
      (mountOverlay (setRecordingState "transcribing" initialUIState) 0)).timerDeadline =
      some ((mountOverlay (setRecordingState "transcribing" initialUIState) 0).now +
        AUTO_DISMISS_ERROR_MS) ∧
    (advanceTime 1200
      (applyStoreChange (setRecordingError (some CyranoError.micAccessDenied))
        (mountOverlay (setRecordingState "transcribing" initialUIState) 0))).dismissCmds =
      (mountOverlay (setRecordingState "transcribing" initialUIState) 0).dismissCmds ∧
    (advanceTime 1800
      (applyStoreChange (setRecordingError (some CyranoError.micAccessDenied))
        (mountOverlay (setRecordingState "transcribing" initialUIState) 0))).dismissCmds =
      (mountOverlay (setRecordingState "transcribing" initialUIState) 0).dismissCmds + 1 :=
  c6_auto_dismiss_delays
    (mountOverlay (setRecordingState "transcribing" initialUIState) 0)
    CyranoError.micAccessDenied (by decide) (by decide)

/-- C7 (counterexample): the dismiss routine is not idempotent in itself —
invoking `dismissOverlay` twice in a row on an overlay mounted in the
`done` state issues two backend dismiss commands, not one; the routine
issues a backend call unconditionally on every invocation, so the claim
that repeated calls produce no duplicate backend dismiss calls beyond the
first is false. -/
theorem c7_repeated_dismiss_counterexample :
    (dismissOverlay (dismissOverlay
      (mountOverlay (setRecordingState "done" initialUIState) 0))).dismissCmds = 2 ∧
    ¬ (dismissOverlay (dismissOverlay
      (mountOverlay (setRecordingState "done" initialUIState) 0))).dismissCmds ≤ 1 := by
  decide

/-- C7 (amended): per dismissal cycle starting in a terminal state with a
pending timeout, each actual trigger path issues exactly one backend
dismiss command: a manual click clears the pending timeout as its first
step, so the dismiss command fires exactly once even if the timeout's
deadline subsequently passes; likewise a timeout firing consumes the
timeout, so further clock advance issues no second command. Duplicate
suppression is by timer invalidation only: a further direct invocation of
the dismiss routine would issue its own backend call (see the
counterexample). -/
theorem c7_at_most_one_dismiss_per_trigger (s : OverlaySt) (d d2 t : Nat)
    (hterm : s.store.recordingState = "done" ∨ s.store.recordingState = "error")
    (htimer : s.timerDeadline = some t) (hfire : t ≤ s.now + d) :
    (handleClick s).dismissCmds = s.dismissCmds + 1 ∧
    (advanceTime d (handleClick s)).dismissCmds = s.dismissCmds + 1 ∧
    (advanceTime d s).dismissCmds = s.dismissCmds + 1 ∧
    (advanceTime d2 (advanceTime d s)).dismissCmds = s.dismissCmds + 1 := by
  have hclick : handleClick s =
      runAutoDismissEffect (dismissOverlay { s with timerDeadline := none }) := by
    rcases hterm with h | h <;> simp +decide [handleClick, h]
  have had := afterDismiss_spec { s with timerDeadline := none }
  have hc1 : (handleClick s).dismissCmds = s.dismissCmds + 1 := by
    rw [hclick]; exact had.2.1
  have hcT : (handleClick s).timerDeadline = none := by
    rw [hclick]; exact had.1
  have hc2 : (advanceTime d (handleClick s)).dismissCmds = s.dismissCmds + 1 := by
    rw [advanceTime_no_timer d _ hcT]; exact hc1
  have hf := advanceTime_fires d t s htimer hfire
  have hc4 : (advanceTime d2 (advanceTime d s)).dismissCmds = s.dismissCmds + 1 := by
    rw [advanceTime_no_timer d2 _ hf.2.1]; exact hf.1
  exact ⟨hc1, hc2, hf.1, hc4⟩

/-- C7 (witness): the amended theorem applied to an overlay mounted in the
`done` state at clock 0, whose pending timeout has deadline 1200. -/
theorem c7_at_most_one_dismiss_per_trigger_witness :
    (handleClick (mountOverlay (setRecordingState "done" initialUIState) 0)).dismissCmds =
      (mountOverlay (setRecordingState "done" initialUIState) 0).dismissCmds + 1 ∧
    (advanceTime 1200
      (handleClick (mountOverlay (setRecordingState "done" initialUIState) 0))).dismissCmds =
      (mountOverlay (setRecordingState "done" initialUIState) 0).dismissCmds + 1 ∧
    (advanceTime 1200
      (mountOverlay (setRecordingState "done" initialUIState) 0)).dismissCmds =
      (mountOverlay (setRecordingState "done" initialUIState) 0).dismissCmds + 1 ∧
    (advanceTime 999 (advanceTime 1200
      (mountOverlay (setRecordingState "done" initialUIState) 0))).dismissCmds =
      (mountOverlay (setRecordingState "done" initialUIState) 0).dismissCmds + 1 :=
  c7_at_most_one_dismiss_per_trigger
    (mountOverlay (setRecordingState "done" initialUIState) 0)
    1200 999 (0 + AUTO_DISMISS_SUCCESS_MS) (by decide) (by decide) (by decide)

/-- C8: entering `recording` or `transcribing` (with a null error payload)
cancels any pending timeout and arms none, and from there advancing the
clock by any amount issues no dismiss command and leaves no timeout
armed. -/
theorem c8_no_timer_in_active_states (s : OverlaySt) (q : String) (d : Nat)
    (hq : q = "recording" ∨ q = "transcribing")
    (herr : s.store.recordingError = none)
    (hne : s.store.recordingState ≠ q) :
    (applyStoreChange (setRecordingState q) s).timerDeadline = none ∧
    (advanceTime d (applyStoreChange (setRecordingState q) s)).dismissCmds =
      s.dismissCmds ∧
    (advanceTime d (applyStoreChange (setRecordingState q) s)).timerDeadline =
      none := by
  have hb : ((setRecordingState q s.store).recordingState ==
      s.store.recordingState) = false := by
    simp only [setRecordingState, beq_eq_false_iff_ne, ne_eq]
    exact fun hh => hne hh.symm
  have hA : applyStoreChange (setRecordingState q) s =
      { s with store := setRecordingState q s.store,
               timerDeadline := none } := by
    unfold applyStoreChange
    rw [hb]
    rcases hq with h | h <;> subst h <;>
      simp +decide [runAutoDismissEffect, autoDismissDelay, overlayIsError,
        setRecordingState, herr]
  rw [hA, advanceTime_no_timer d _ rfl]
  exact ⟨rfl, rfl, rfl⟩

/-- C8 (witness): the theorem applied to an overlay mounted in the `done`
state at clock 0, whose pending 1200 ms timeout is cancelled by entering
`recording`. -/
theorem c8_no_timer_in_active_states_witness :
    (applyStoreChange (setRecordingState "recording")
      (mountOverlay (setRecordingState "done" initialUIState) 0)).timerDeadline =
      none ∧
    (advanceTime 10000 (applyStoreChange (setRecordingState "recording")
      (mountOverlay (setRecordingState "done" initialUIState) 0))).dismissCmds =
      (mountOverlay (setRecordingState "done" initialUIState) 0).dismissCmds ∧
    (advanceTime 10000 (applyStoreChange (setRecordingState "recording")
      (mountOverlay (setRecordingState "done" initialUIState) 0))).timerDeadline =
      none :=
  c8_no_timer_in_active_states
    (mountOverlay (setRecordingState "done" initialUIState) 0)
    "recording" 10000 (Or.inl rfl) (by decide) (by decide)

/-- C9: unmounting invokes the effect cleanup, which clears the timeout
slot unconditionally, and after unmount no dismiss command is ever issued,
however far the clock advances. -/
theorem c9_unmount_cancels_timer (s : OverlaySt) (d : Nat) :
    (unmountOverlay s).timerDeadline = none ∧
    (advanceTime d (unmountOverlay s)).dismissCmds = s.dismissCmds := by
  refine ⟨rfl, ?_⟩
  rw [advanceTime_no_timer d _ rfl]
  rfl
